import Mathlib

/-!
Verification of the recipe-sharing web application (src/app.py) against its
specification.  The Flask route handlers are embedded shallowly: the Mongo
collections become Lean lists of records, each handler becomes a pure
function from the database state (plus the request data) to the new state
together with the data handed to the rendered template or redirect.
-/

namespace MS3

/-- PER_PAGE constant from app.py line 35: recipes shown per page. -/
def PER_PAGE : Nat := 6

/-- Default profile picture URL, app.py line 39. -/
def DEFAULT_PROFILE_PICTURE : String :=
  "https://res.cloudinary.com/epic-food-photo-storage/image/upload/v1626176413/profile-images/profile_avatar_k5035g.png"

/-- Default recipe picture URL, app.py line 40. -/
def DEFAULT_RECIPE_PICTURE : String :=
  "https://res.cloudinary.com/epic-food-photo-storage/image/upload/v1627730195/recipe-images/food_avatar_mmbalr.jpg"

/-- A document of the users collection.  Fields as inserted by the register
handler (app.py lines 145-150). -/
structure User where
  name : String
  username : String
  password : String
  profile_picture : String
deriving Repr, DecidableEq

/-- A document of the recipes collection.  Fields as inserted by the
upload_recipe handler (app.py lines 242-255); the id stands for the Mongo
ObjectId.  The field favorited_by is a Mongo array that is absent until the
first push; the empty list models the absent array (a push on an absent
field creates a one-element array, a pull on an absent field is a no-op,
matching the list operations on the empty list). -/
structure Recipe where
  id : Nat
  recipe_name : String
  description : String
  recipe_cagetory : String
  level : String
  servings : String
  preptime : String
  cooktime : String
  ingredients : List String
  recipe_method : List String
  recipe_picture : String
  uploaded_on : String
  uploaded_by : String
  favorited_by : List String
deriving Repr, DecidableEq

/-- A document of the comments collection, as inserted by the recipe
handler on POST (app.py lines 316-322). -/
structure Comment where
  recipe_id : Nat
  created_by_username : String
  created_by_name : String
  date : String
  comment : String
deriving Repr, DecidableEq

/-- The three mutable Mongo collections the verified handlers touch. -/
structure DB where
  users : List User
  recipes : List Recipe
  comments : List Comment
deriving Repr, DecidableEq

/-- Flask session cookie content: the user and name keys, absent when
anonymous. -/
structure Session where
  user : Option String
  name : Option String
deriving Repr, DecidableEq

/-- What a handler sends back: a redirect to a named endpoint or a rendered
template. -/
inductive Response where
  | redirect (endpoint : String)
  | render (template : String)
deriving Repr, DecidableEq

/-- Outcome of a state-changing handler: the new database, the new session,
the flashed messages and the HTTP response. -/
structure HandlerResult where
  db : DB
  session : Session
  flashes : List String
  response : Response
deriving Repr, DecidableEq

/-! ## Pagination (app.py lines 49-63)

The page argument is the 1-based page number parsed from the request query
string by get_page_args, defaulting to 1.  Python list slicing
recipes[offset : offset + PER_PAGE] with a non-negative offset is drop
followed by take. -/

/-- paginate from app.py lines 49-54: offset = page * PER_PAGE - PER_PAGE,
then the slice recipes[offset : offset + PER_PAGE]. -/
def paginate {α : Type} (recipes : List α) (page : Nat) : List α :=
  let offset := page * PER_PAGE - PER_PAGE
  (recipes.drop offset).take PER_PAGE

/-- The pagination metadata object built by pagination_args
(app.py lines 57-63). -/
structure Pagination where
  page : Nat
  per_page : Nat
  total : Nat
deriving Repr, DecidableEq

/-- pagination_args from app.py lines 57-63: total is the length of the
full result sequence. -/
def pagination_args {α : Type} (recipes : List α) (page : Nat) : Pagination :=
  { page := page, per_page := PER_PAGE, total := recipes.length }

/-! ## Category / difficulty filter (app.py lines 95-119) -/

/-- The three-way branch of the food_category route (app.py lines 100-109).
Note the collection field is spelled recipe_cagetory throughout app.py. -/
def food_category (recipes : List Recipe) (category difficulty : String) : List Recipe :=
  if category = "All" then
    recipes.filter (fun r => r.level == difficulty)
  else if difficulty = "All" then
    recipes.filter (fun r => r.recipe_cagetory == category)
  else
    recipes.filter (fun r => r.level == difficulty && r.recipe_cagetory == category)

/-! ## Password hashing (werkzeug.security)

The register and login handlers delegate hashing to the external library
werkzeug.security.  Modelled from the spec and the werkzeug contract: the
stored credential is a string of shape method, dollar sign, salt, dollar
sign, digest; verification re-derives the digest from the salt embedded in
the stored string and the submitted password.  The digest function itself
is idealized as collision-free (an injective function of the password for
a fixed salt); the cryptographic one-wayness is outside the embedding. -/

/-- Hash method tag reproduced in every stored credential. -/
def METHOD : String := "pbkdf2:sha256:260000"

/-- Idealized salted digest of a password.  Injective in the password for
a fixed salt, standing in for the PBKDF2 digest. -/
def hashDigest (salt password : String) : String :=
  salt ++ ":" ++ password

/-- werkzeug generate_password_hash: method, salt and digest joined by
dollar signs. -/
def generate_password_hash (salt password : String) : String :=
  METHOD ++ "$" ++ salt ++ "$" ++ hashDigest salt password

/-- Split a character list at the first occurrence of c, returning the
part before and the part after, or none when c does not occur. -/
def splitFirst (c : Char) : List Char → Option (List Char × List Char)
  | [] => none
  | x :: xs =>
    if x = c then some ([], xs)
    else
      match splitFirst c xs with
      | none => none
      | some (a, b) => some (x :: a, b)

/-- werkzeug check_password_hash: split the stored string on the first two
dollar signs into method, salt and digest, then compare the stored digest
with the digest recomputed from the embedded salt and the submitted
password. -/
def check_password_hash (pwhash password : String) : Bool :=
  match splitFirst ('$') pwhash.data with
  | none => false
  | some (_method, rest) =>
    match splitFirst ('$') rest with
    | none => false
    | some (salt, digest) => digest == (hashDigest (String.mk salt) password).data

/-! ## User lookup and the register / login handlers -/

/-- find_one on the users collection with a username filter: the first
matching document. -/
def find_one_user (users : List User) (username : String) : Option User :=
  users.find? (fun u => u.username == username)

/-- The POST data of the registration form.  The register handler reads
only the name, username and password fields (app.py lines 145-148); the
profile_picture component models a picture submitted by the registrant,
which the handler never reads. -/
structure RegisterForm where
  name : String
  username : String
  password : String
  profile_picture : Option String
deriving Repr, DecidableEq

/-- The User document the register handler inserts for a given form and
salt (app.py lines 145-150): the username lower-cased, the password
hashed, the profile picture always the built-in default. -/
def newUserDoc (salt : String) (form : RegisterForm) : User :=
  { name := form.name
    username := form.username.toLower
    password := generate_password_hash salt form.password
    profile_picture := DEFAULT_PROFILE_PICTURE }

/-- The register handler on POST (app.py lines 136-158).  The salt
argument stands for the random salt werkzeug draws for
generate_password_hash. -/
def register (db : DB) (sess : Session) (salt : String) (form : RegisterForm) :
    HandlerResult :=
  match find_one_user db.users form.username.toLower with
  | some _ =>
    { db := db, session := sess
      flashes := ["Username already exists"]
      response := .redirect "register" }
  | none =>
    let newUser : User := newUserDoc salt form
    { db := { db with users := db.users ++ [newUser] }
      session := { user := some form.username.toLower, name := some form.name }
      flashes := ["Registration Successful!"]
      response := .redirect "profile" }

/-- The login handler on POST (app.py lines 165-188).  On success the
handler re-queries the same username to fill the session name key; the
query is the deterministic find_one already matched, so its result is the
same document. -/
def login (db : DB) (sess : Session) (form_username form_password : String) :
    HandlerResult :=
  match find_one_user db.users form_username.toLower with
  | some existing_user =>
    if check_password_hash existing_user.password form_password then
      { db := db
        session := { user := some form_username.toLower, name := some existing_user.name }
        flashes := ["Great to see you, " ++ existing_user.name]
        response := .redirect "profile" }
    else
      { db := db, session := sess
        flashes := ["Incorrect Username or Password, please try again!"]
        response := .redirect "login" }
  | none =>
    { db := db, session := sess
      flashes := ["Incorrect Username or Password, please try again!"]
      response := .redirect "login" }

/-! ## Recipe lookup, update helpers, favorites, edit -/

/-- find_one on the recipes collection with an _id filter. -/
def find_one_recipe (recipes : List Recipe) (rid : Nat) : Option Recipe :=
  recipes.find? (fun r => r.id == rid)

/-- Mongo update_one semantics on a list collection: apply f to the first
document matching the filter p, leave everything else unchanged. -/
def update_first (p : Recipe → Bool) (f : Recipe → Recipe) :
    List Recipe → List Recipe
  | [] => []
  | r :: rs => if p r then f r :: rs else r :: update_first p f rs

/-- The add_favorite handler (app.py lines 337-345): find_one by id, then
update_one whose filter is the whole found document, pushing the session
username onto favorited_by.  Mongo push appends unconditionally, creating
the array when absent.  When find_one yields no document the update filter
matches nothing; the collection is unchanged. -/
def add_favorite (db : DB) (rid : Nat) (username : String) : DB :=
  match find_one_recipe db.recipes rid with
  | none => db
  | some recipe =>
    let recipes2 :=
      update_first (fun r => r == recipe)
        (fun r => { r with favorited_by := r.favorited_by ++ [username] })
        db.recipes
    { db with recipes := recipes2 }

/-- The remove_favorite handler (app.py lines 348-355): as add_favorite
but with a pull, which removes every occurrence of the username from the
favorited_by array and is a no-op when it is not present. -/
def remove_favorite (db : DB) (rid : Nat) (username : String) : DB :=
  match find_one_recipe db.recipes rid with
  | none => db
  | some recipe =>
    let recipes2 :=
      update_first (fun r => r == recipe)
        (fun r => { r with favorited_by := r.favorited_by.filter (fun x => x != username) })
        db.recipes
    { db with recipes := recipes2 }

/-- The POST data of the recipe upload / edit form (field names as in
app.py lines 278-287). -/
structure RecipeForm where
  recipename : String
  description : String
  recipe_category : String
  level : String
  servings : String
  preptime : String
  cooktime : String
  ingredients : List String
  recipe_method : List String
deriving Repr, DecidableEq

/-- The Mongo set operation performed by edit_recipe (app.py lines
277-290): exactly the ten listed fields are written; every field not named
in the set document (id, uploaded_on, uploaded_by, favorited_by) keeps its
stored value. -/
def apply_set (form : RecipeForm) (pic : String) (r : Recipe) : Recipe :=
  { r with
    recipe_name := form.recipename
    description := form.description
    recipe_cagetory := form.recipe_category
    level := form.level
    servings := form.servings
    preptime := form.preptime
    cooktime := form.cooktime
    ingredients := form.ingredients
    recipe_method := form.recipe_method
    recipe_picture := pic }

/-- The edit_recipe handler on POST (app.py lines 267-292).  file_url is
the URL the image host returns when a file is supplied with the request
and none when the file input is empty; the picture of the stored recipe is
read first and kept unless a new file is supplied.  When find_one yields
no document the source would fail on the field access; the claims only
concern existing recipes. -/
def edit_recipe (db : DB) (rid : Nat) (form : RecipeForm) (file_url : Option String) :
    DB :=
  match find_one_recipe db.recipes rid with
  | none => db
  | some existing =>
    let recipe_picture_url :=
      match file_url with
      | some url => url
      | none => existing.recipe_picture
    let recipes2 :=
      update_first (fun r => r.id == rid) (apply_set form recipe_picture_url)
        db.recipes
    { db with recipes := recipes2 }

/-! ## Recipe detail route with comment submission (app.py lines 300-327) -/

/-- The comments query of the recipe route: all comments whose recipe_id
matches. -/
def find_comments (comments : List Comment) (rid : Nat) : List Comment :=
  comments.filter (fun c => c.recipe_id == rid)

/-- The recipe detail handler on POST (app.py lines 300-327).  The count
of existing comments is evaluated eagerly before the insert; the comments
query itself returns a lazy cursor that the template only consumes while
rendering, after insert_one has run, so when the pre-insert count is
positive the rendered list is drawn from the post-insert collection.  When
the pre-insert count is zero the view receives no comment list at all
(comments = None).  Returns the new database state and the comment list
handed to the template. -/
def recipe_post (db : DB) (rid : Nat) (sess_user sess_name date text : String) :
    DB × Option (List Comment) :=
  let number_of_comments := (find_comments db.comments rid).length
  let new_comment : Comment :=
    { recipe_id := rid
      created_by_username := sess_user
      created_by_name := sess_name
      date := date
      comment := text }
  let db2 := { db with comments := db.comments ++ [new_comment] }
  let comments :=
    if number_of_comments > 0 then some (find_comments db2.comments rid) else none
  (db2, comments)

/-! ## Data-model invariant -/

/-- The User invariant of the data model: usernames are stored lower-cased
and pairwise distinct, which makes them unique case-insensitively. -/
def UsernameInvariant (users : List User) : Prop :=
  (∀ u ∈ users, u.username.toLower = u.username)
  ∧ users.Pairwise (fun u v => u.username ≠ v.username)

/-! ## Sample data for concrete runs of the handlers -/

/-- The empty state of the three collections. -/
def emptyDB : DB := { users := [], recipes := [], comments := [] }

/-- The anonymous session. -/
def anonSession : Session := { user := none, name := none }

/-- A stored recipe uploaded by alice, not yet favorited. -/
def sampleRecipe : Recipe :=
  { id := 1, recipe_name := "Tomato Soup", description := "warming",
    recipe_cagetory := "Soup", level := "Easy", servings := "2",
    preptime := "10", cooktime := "20", ingredients := ["tomato", "water"],
    recipe_method := ["chop", "boil"], recipe_picture := DEFAULT_RECIPE_PICTURE,
    uploaded_on := "01-01-2021", uploaded_by := "alice", favorited_by := [] }

/-- A stored recipe uploaded by carol and already favorited by bob. -/
def sampleRecipe2 : Recipe :=
  { id := 2, recipe_name := "Green Salad", description := "fresh",
    recipe_cagetory := "Salad", level := "Hard", servings := "4",
    preptime := "15", cooktime := "0", ingredients := ["lettuce"],
    recipe_method := ["toss"], recipe_picture := "https://example.com/salad.jpg",
    uploaded_on := "02-02-2022", uploaded_by := "carol", favorited_by := ["bob"] }

/-- A database holding the two sample recipes and no comments. -/
def sampleDB : DB :=
  { users := [], recipes := [sampleRecipe, sampleRecipe2], comments := [] }

/-- A registered user, stored the way the register handler stores it. -/
def sampleUser : User :=
  { name := "Alice Smith", username := "alice",
    password := generate_password_hash "s4lt" "hunter2",
    profile_picture := DEFAULT_PROFILE_PICTURE }

/-- A database holding the one registered sample user. -/
def sampleUserDB : DB := { users := [sampleUser], recipes := [], comments := [] }

/-- A stored comment on the first sample recipe. -/
def sampleComment : Comment :=
  { recipe_id := 1, created_by_username := "carol", created_by_name := "Carol",
    date := "03-03-2021", comment := "lovely" }

/-- The sample database together with one pre-existing comment. -/
def sampleDB3 : DB :=
  { users := [], recipes := [sampleRecipe, sampleRecipe2], comments := [sampleComment] }

/-- A registration submission; the registrant supplies a profile picture,
which the register handler never reads. -/
def aliceForm : RegisterForm :=
  { name := "Alice Smith", username := "Alice", password := "hunter2",
    profile_picture := some "https://example.com/me.png" }

/-- A recipe edit submission with every form field filled in. -/
def sampleForm : RecipeForm :=
  { recipename := "Red Salad", description := "crisp",
    recipe_category := "Salad", level := "Medium", servings := "3",
    preptime := "12", cooktime := "5", ingredients := ["radicchio"],
    recipe_method := ["slice", "mix"] }

/-! ## Helper lemmas on find? and update_first -/

/-- Applying update_first with a function that fixes every document the
filter matches leaves the collection unchanged. -/
theorem update_first_fix {p : Recipe → Bool} {f : Recipe → Recipe}
    (h : ∀ x, p x = true → f x = x) :
    ∀ l : List Recipe, update_first p f l = l := by
  intro l
  induction l with
  | nil => rfl
  | cons x xs ih =>
    by_cases hx : p x = true
    · simp [update_first, hx, h x hx]
    · simp [update_first, hx, ih]

/-- A successful find? splits the list into a prefix of non-matching
documents, the found document, and a suffix. -/
theorem find?_split {p : Recipe → Bool} :
    ∀ {l : List Recipe} {r : Recipe}, l.find? p = some r →
      ∃ l₁ l₂, l = l₁ ++ r :: l₂ ∧ ∀ x ∈ l₁, p x = false := by
  intro l
  induction l with
  | nil => intro r h; simp [List.find?] at h
  | cons x xs ih =>
    intro r h
    by_cases hx : p x = true
    · refine ⟨[], xs, ?_, by simp⟩
      simp [List.find?, hx] at h
      simp [h]
    · rw [List.find?_cons] at h
      rw [Bool.not_eq_true] at hx
      rw [hx] at h
      obtain ⟨l₁, l₂, heq, hall⟩ := ih h
      exact ⟨x :: l₁, l₂, by simp [heq], by
        intro y hy
        rcases List.mem_cons.mp hy with hy | hy
        · rw [hy]; exact hx
        · exact hall y hy⟩

/-- update_first rewrites exactly the head of the suffix when every
document of the prefix fails the filter and the head matches it. -/
theorem update_first_append {q : Recipe → Bool} {f : Recipe → Recipe}
    {l₁ l₂ : List Recipe} {r : Recipe}
    (h : ∀ x ∈ l₁, q x = false) (hr : q r = true) :
    update_first q f (l₁ ++ r :: l₂) = l₁ ++ f r :: l₂ := by
  induction l₁ with
  | nil => simp [update_first, hr]
  | cons x xs ih =>
    have hx : q x = false := h x (by simp)
    simp only [List.cons_append, update_first, hx]
    simp only [Bool.false_eq_true, if_false, List.cons.injEq, true_and]
    exact ih (fun y hy => h y (by simp [hy]))

/-- find? returns the head of the suffix when every document of the prefix
fails the predicate and the head satisfies it. -/
theorem find?_append_cons {p : Recipe → Bool} {l₁ l₂ : List Recipe} {r : Recipe}
    (h : ∀ x ∈ l₁, p x = false) (hr : p r = true) :
    (l₁ ++ r :: l₂).find? p = some r := by
  induction l₁ with
  | nil => simp [List.find?_cons, hr]
  | cons x xs ih =>
    have hx : p x = false := h x (by simp)
    rw [List.cons_append, List.find?_cons, hx]
    exact ih (fun y hy => h y (by simp [hy]))

/-- Unfolding add_favorite when the recipe lookup succeeds. -/
theorem add_favorite_found {db : DB} {rid : Nat} {r : Recipe} (u : String)
    (h : find_one_recipe db.recipes rid = some r) :
    add_favorite db rid u =
      { db with
        recipes :=
          update_first (fun x => x == r)
            (fun x => { x with favorited_by := x.favorited_by ++ [u] })
            db.recipes } := by
  unfold add_favorite
  rw [h]

/-- Unfolding remove_favorite when the recipe lookup succeeds. -/
theorem remove_favorite_found {db : DB} {rid : Nat} {r : Recipe} (u : String)
    (h : find_one_recipe db.recipes rid = some r) :
    remove_favorite db rid u =
      { db with
        recipes :=
          update_first (fun x => x == r)
            (fun x => { x with favorited_by := x.favorited_by.filter (fun y => y != u) })
            db.recipes } := by
  unfold remove_favorite
  rw [h]

/-! ## Lemmas on lower-casing and the password hash model -/

/-- Char.toLower is idempotent: lowering an already-lowered character
changes nothing. -/
theorem char_toLower_toLower (c : Char) : c.toLower.toLower = c.toLower := by
  simp only [Char.toLower]
  by_cases h : c.toNat ≥ 65 ∧ c.toNat ≤ 90
  · rw [if_pos h]
    have hv : (c.toNat + 32).isValidChar := Or.inl (by omega)
    have ht : (Char.ofNat (c.toNat + 32)).toNat = c.toNat + 32 := by
      rw [Char.ofNat, dif_pos hv]; rfl
    rw [if_neg (by rw [ht]; omega)]
  · rw [if_neg h, if_neg h]

/-- String.toLower is idempotent. -/
theorem string_toLower_toLower (s : String) : s.toLower.toLower = s.toLower := by
  simp only [String.toLower, String.map_eq]
  congr 1
  rw [List.map_map]
  exact List.map_congr_left (fun c _ => char_toLower_toLower c)

/-- splitFirst cuts at the first occurrence of the separator. -/
theorem splitFirst_append {c : Char} :
    ∀ {a : List Char} (b : List Char), c ∉ a →
      splitFirst c (a ++ c :: b) = some (a, b) := by
  intro a
  induction a with
  | nil => intro b _; simp [splitFirst]
  | cons x xs ih =>
    intro b h
    have hx : ¬ x = c := fun e => h (e ▸ List.mem_cons_self x xs)
    have hxs : c ∉ xs := fun hc => h (List.mem_cons_of_mem _ hc)
    simp only [List.cons_append, splitFirst, if_neg hx, List.append_eq, ih b hxs]

/-- The stored credential never equals the plain-text password: it always
carries the method and salt prefix. -/
theorem generate_password_hash_ne (salt pw : String) :
    generate_password_hash salt pw ≠ pw := by
  intro h
  have hlen := congrArg (fun t => t.data.length) h
  simp only [generate_password_hash, hashDigest, String.data_append,
    List.length_append] at hlen
  have hM : METHOD.data.length = 20 := by decide
  have hD : ("$" : String).data.length = 1 := by decide
  have hC : (":" : String).data.length = 1 := by decide
  simp only [hM, hD, hC] at hlen
  omega

/-- Verifying a stored credential against a submitted password compares
the submitted password with the one hashed, for any salt free of the
dollar separator. -/
theorem check_generate (salt pw pw2 : String) (hsalt : ('$' : Char) ∉ salt.data) :
    check_password_hash (generate_password_hash salt pw) pw2 = (pw == pw2) := by
  have hM : ('$' : Char) ∉ METHOD.data := by decide
  have h1 : (generate_password_hash salt pw).data
      = METHOD.data ++ '$' :: (salt.data ++ '$' :: (hashDigest salt pw).data) := by
    simp [generate_password_hash, String.data_append]
  rw [check_password_hash, h1]
  simp only [splitFirst_append _ hM, splitFirst_append _ hsalt]
  show ((hashDigest salt pw).data == (hashDigest salt pw2).data) = (pw == pw2)
  by_cases h : pw = pw2
  · rw [h]; simp
  · have hd : pw.data ≠ pw2.data := fun e => h (by
      have : String.mk pw.data = String.mk pw2.data := congrArg String.mk e
      simpa using this)
    have hl : (hashDigest salt pw).data ≠ (hashDigest salt pw2).data := by
      simp only [hashDigest, String.data_append]
      intro e
      exact hd (List.append_cancel_left e)
    rw [beq_eq_false_iff_ne.mpr hl, beq_eq_false_iff_ne.mpr h]

/-! ## Claim theorems -/

/-- C5: for every result sequence and every 1-based page number, paginate
returns the slice at offset (page - 1) * 6 of length up to 6 and
pagination_args reports the length of the full sequence as total; with the
13-element sequence 1..13, page 1 gives 1-6, page 2 gives 7-12, page 3
gives only 13, and the reported total is 13. -/
theorem C5_paginate_slice (α : Type) (recipes : List α) (page : Nat) (h : 1 ≤ page) :
    paginate recipes page = (recipes.drop ((page - 1) * PER_PAGE)).take PER_PAGE
    ∧ (pagination_args recipes page).total = recipes.length
    ∧ paginate ((List.range 13).map (fun i => i + 1)) 1 = [1, 2, 3, 4, 5, 6]
    ∧ paginate ((List.range 13).map (fun i => i + 1)) 2 = [7, 8, 9, 10, 11, 12]
    ∧ paginate ((List.range 13).map (fun i => i + 1)) 3 = [13]
    ∧ (pagination_args ((List.range 13).map (fun i => i + 1)) 1).total = 13 := by
  refine ⟨?_, rfl, by decide, by decide, by decide, by decide⟩
  have hoff : page * PER_PAGE - PER_PAGE = (page - 1) * PER_PAGE := by
    simp only [PER_PAGE]; omega
  simp [paginate, hoff]

/-- Witness for C5_paginate_slice at a concrete sequence and page. -/
theorem C5_paginate_slice_witness :
    1 ≤ 2 ∧
    (paginate [10, 20, 30, 40, 50, 60, 70] 2 =
        (([10, 20, 30, 40, 50, 60, 70].drop ((2 - 1) * PER_PAGE)).take PER_PAGE)
      ∧ (pagination_args [10, 20, 30, 40, 50, 60, 70] 2).total = [10, 20, 30, 40, 50, 60, 70].length
      ∧ paginate ((List.range 13).map (fun i => i + 1)) 1 = [1, 2, 3, 4, 5, 6]
      ∧ paginate ((List.range 13).map (fun i => i + 1)) 2 = [7, 8, 9, 10, 11, 12]
      ∧ paginate ((List.range 13).map (fun i => i + 1)) 3 = [13]
      ∧ (pagination_args ((List.range 13).map (fun i => i + 1)) 1).total = 13) :=
  ⟨by decide, C5_paginate_slice Nat [10, 20, 30, 40, 50, 60, 70] 2 (by decide)⟩

/-- C10: paginate is total for every sequence and every 1-based page
number: the result never exceeds 6 elements, and when the offset
(page - 1) * 6 is at or past the end of the sequence the result is the
empty list. -/
theorem C10_paginate_total (α : Type) (recipes : List α) (page : Nat) (h : 1 ≤ page) :
    (paginate recipes page).length ≤ PER_PAGE
    ∧ (recipes.length ≤ (page - 1) * PER_PAGE → paginate recipes page = []) := by
  constructor
  · exact List.length_take_le PER_PAGE _
  · intro hlen
    have hoff : recipes.length ≤ page * PER_PAGE - PER_PAGE := by
      simp only [PER_PAGE] at hlen ⊢; omega
    simp [paginate, List.drop_eq_nil_of_le hoff]

/-- Witness for C10_paginate_total at a concrete sequence and page. -/
theorem C10_paginate_total_witness :
    1 ≤ 3 ∧
    ((paginate [10, 20, 30] 3).length ≤ PER_PAGE
      ∧ ([10, 20, 30].length ≤ (3 - 1) * PER_PAGE → paginate [10, 20, 30] 3 = [])) :=
  ⟨by decide, C10_paginate_total Nat [10, 20, 30] 3 (by decide)⟩

/-- C6: the category / difficulty filter returns exactly the recipes with
the given difficulty when category is All, exactly the recipes with the
given category when difficulty is All, and exactly the recipes matching
both otherwise. -/
theorem C6_food_category_branches (recipes : List Recipe)
    (category difficulty : String) (r : Recipe) :
    r ∈ food_category recipes category difficulty ↔
      r ∈ recipes ∧
      ((category = "All" ∧ r.level = difficulty) ∨
       (category ≠ "All" ∧ difficulty = "All" ∧ r.recipe_cagetory = category) ∨
       (category ≠ "All" ∧ difficulty ≠ "All"
          ∧ r.level = difficulty ∧ r.recipe_cagetory = category)) := by
  by_cases hc : category = "All"
  · simp [food_category, hc, List.mem_filter]
  · by_cases hd : difficulty = "All"
    · simp [food_category, hc, hd, List.mem_filter]
    · simp [food_category, hc, hd, List.mem_filter, and_assoc]

/-- C1 counterexample: adding the same user to the same recipe twice
leaves two entries for that username in favorited_by, not one, because
the update is an unconditional Mongo push. -/
theorem C1_favorites_counterexample :
    ((find_one_recipe (add_favorite (add_favorite sampleDB 1 "alice") 1 "alice").recipes 1).map
        (fun r => r.favorited_by.count "alice") = some 2)
    ∧ ¬ ((find_one_recipe (add_favorite (add_favorite sampleDB 1 "alice") 1 "alice").recipes 1).map
        (fun r => r.favorited_by.count "alice") = some 1) := by
  constructor
  · decide
  · decide

/-- C1 (amended): add-favorite appends the username unconditionally, so
performing it twice on a recipe that the user had not favorited leaves two
entries for that username; remove-favorite for a username not present in
favorited_by is a no-op that leaves the whole database unchanged. -/
theorem C1_favorites_amended (db : DB) (rid : Nat) (u : String) (r : Recipe)
    (h : find_one_recipe db.recipes rid = some r) (hu : u ∉ r.favorited_by) :
    (∃ r2, find_one_recipe (add_favorite (add_favorite db rid u) rid u).recipes rid = some r2
        ∧ r2.favorited_by.count u = 2)
    ∧ remove_favorite db rid u = db := by
  have h' : db.recipes.find? (fun x => x.id == rid) = some r := h
  have hrid : (r.id == rid) = true := by
    have h2 := List.find?_some h'
    exact h2
  obtain ⟨l₁, l₂, heq, hall⟩ := find?_split h'
  have hne : ∀ x ∈ l₁, (x == r) = false := by
    intro x hx
    rw [beq_eq_false_iff_ne]
    intro e
    have hx2 := hall x hx
    rw [e, hrid] at hx2
    exact Bool.noConfusion hx2
  constructor
  · have h1 : (add_favorite db rid u).recipes
        = l₁ ++ ({ r with favorited_by := r.favorited_by ++ [u] }) :: l₂ := by
      rw [add_favorite_found u h]
      show update_first _ _ db.recipes = _
      rw [heq]
      exact update_first_append hne (by simp)
    have h2 : find_one_recipe (add_favorite db rid u).recipes rid
        = some ({ r with favorited_by := r.favorited_by ++ [u] }) := by
      show (add_favorite db rid u).recipes.find? _ = _
      rw [h1]
      exact find?_append_cons hall hrid
    have hne2 : ∀ x ∈ l₁, (x == ({ r with favorited_by := r.favorited_by ++ [u] } : Recipe)) = false := by
      intro x hx
      rw [beq_eq_false_iff_ne]
      intro e
      have hx2 := hall x hx
      rw [e] at hx2
      rw [show ({ r with favorited_by := r.favorited_by ++ [u] } : Recipe).id = r.id from rfl,
        hrid] at hx2
      exact Bool.noConfusion hx2
    have h3 : (add_favorite (add_favorite db rid u) rid u).recipes
        = l₁ ++ ({ r with favorited_by := (r.favorited_by ++ [u]) ++ [u] }) :: l₂ := by
      rw [add_favorite_found u h2]
      show update_first _ _ (add_favorite db rid u).recipes = _
      rw [h1]
      exact update_first_append hne2 (by simp)
    refine ⟨{ r with favorited_by := (r.favorited_by ++ [u]) ++ [u] }, ?_, ?_⟩
    · show (add_favorite (add_favorite db rid u) rid u).recipes.find? _ = _
      rw [h3]
      exact find?_append_cons hall hrid
    · simp [List.count_append, List.count_eq_zero_of_not_mem hu]
  · rw [remove_favorite_found u h]
    have hfix : update_first (fun x => x == r)
        (fun x => { x with favorited_by := x.favorited_by.filter (fun y => y != u) })
        db.recipes = db.recipes := by
      apply update_first_fix
      intro x hx
      have hxr : x = r := by rwa [beq_iff_eq] at hx
      subst hxr
      have hfil : x.favorited_by.filter (fun y => y != u) = x.favorited_by := by
        rw [List.filter_eq_self]
        intro a ha
        rw [bne_iff_ne]
        intro e
        rw [e] at ha
        exact hu ha
      rw [hfil]
    rw [hfix]

/-- Witness for C1_favorites_amended on the sample database. -/
theorem C1_favorites_amended_witness :
    find_one_recipe sampleDB.recipes 1 = some sampleRecipe
    ∧ "bob" ∉ sampleRecipe.favorited_by
    ∧ ((∃ r2, find_one_recipe (add_favorite (add_favorite sampleDB 1 "bob") 1 "bob").recipes 1
            = some r2
          ∧ r2.favorited_by.count "bob" = 2)
        ∧ remove_favorite sampleDB 1 "bob" = sampleDB) :=
  ⟨by decide, by decide,
    C1_favorites_amended sampleDB 1 "bob" sampleRecipe (by decide) (by decide)⟩

/-- C2 counterexample: submitting a comment on a recipe that has no
pre-existing comments does insert the comment, but the view is rendered
with no comment list at all, so the page does not include the newly
submitted comment. -/
theorem C2_comment_counterexample :
    (recipe_post sampleDB 1 "bob" "Bob" "25-12-2021" "tasty").2 = none
    ∧ ({ recipe_id := 1, created_by_username := "bob", created_by_name := "Bob",
         date := "25-12-2021", comment := "tasty" } : Comment)
        ∈ (recipe_post sampleDB 1 "bob" "Bob" "25-12-2021" "tasty").1.comments := by
  constructor
  · decide
  · decide

/-- C2 (amended): the comment is always inserted; the re-rendered page
includes the new comment exactly when the recipe already had at least one
comment before the submission (the pre-insert count gates the comment
list; the list itself is read after the insert), and when it had none the
view receives no comment list. -/
theorem C2_comment_render (db : DB) (rid : Nat) (su sn date text : String) :
    (({ recipe_id := rid, created_by_username := su, created_by_name := sn,
        date := date, comment := text } : Comment)
        ∈ (recipe_post db rid su sn date text).1.comments)
    ∧ (0 < (find_comments db.comments rid).length →
        ∃ cs, (recipe_post db rid su sn date text).2 = some cs
          ∧ ({ recipe_id := rid, created_by_username := su, created_by_name := sn,
               date := date, comment := text } : Comment) ∈ cs)
    ∧ ((find_comments db.comments rid).length = 0 →
        (recipe_post db rid su sn date text).2 = none) := by
  refine ⟨?_, ?_, ?_⟩
  · simp [recipe_post]
  · intro hpos
    simp only [recipe_post]
    rw [if_pos hpos]
    refine ⟨_, rfl, ?_⟩
    simp [find_comments]
  · intro h0
    simp [recipe_post, h0]

/-- Witness for C2_comment_render on the database with one stored
comment. -/
theorem C2_comment_render_witness :
    (({ recipe_id := 1, created_by_username := "bob", created_by_name := "Bob",
        date := "25-12-2021", comment := "yum" } : Comment)
        ∈ (recipe_post sampleDB3 1 "bob" "Bob" "25-12-2021" "yum").1.comments)
    ∧ (0 < (find_comments sampleDB3.comments 1).length →
        ∃ cs, (recipe_post sampleDB3 1 "bob" "Bob" "25-12-2021" "yum").2 = some cs
          ∧ ({ recipe_id := 1, created_by_username := "bob", created_by_name := "Bob",
               date := "25-12-2021", comment := "yum" } : Comment) ∈ cs)
    ∧ ((find_comments sampleDB3.comments 1).length = 0 →
        (recipe_post sampleDB3 1 "bob" "Bob" "25-12-2021" "yum").2 = none) :=
  C2_comment_render sampleDB3 1 "bob" "Bob" "25-12-2021" "yum"

/-- C3 counterexample: a registration that supplies a profile picture
still stores the built-in default placeholder, not the supplied URL. -/
theorem C3_register_counterexample :
    ((register emptyDB anonSession "s4lt" aliceForm).db.users.map
        (fun u => u.profile_picture)) = [DEFAULT_PROFILE_PICTURE]
    ∧ aliceForm.profile_picture = some "https://example.com/me.png"
    ∧ DEFAULT_PROFILE_PICTURE ≠ "https://example.com/me.png" := by
  refine ⟨?_, ?_, ?_⟩
  · decide
  · decide
  · decide

/-- C3 (amended): every registration that does not conflict on username
stores the built-in default profile placeholder as the profile picture,
regardless of any picture supplied by the registrant. -/
theorem C3_register_default_picture (db : DB) (sess : Session) (salt : String)
    (form : RegisterForm) (h : find_one_user db.users form.username.toLower = none) :
    ∃ u, (register db sess salt form).db.users = db.users ++ [u]
      ∧ u.profile_picture = DEFAULT_PROFILE_PICTURE := by
  simp only [register, h]
  exact ⟨_, rfl, rfl⟩

/-- Witness for C3_register_default_picture on the empty database. -/
theorem C3_register_default_picture_witness :
    find_one_user emptyDB.users aliceForm.username.toLower = none
    ∧ (∃ u, (register emptyDB anonSession "s4lt" aliceForm).db.users = emptyDB.users ++ [u]
        ∧ u.profile_picture = DEFAULT_PROFILE_PICTURE) :=
  ⟨rfl, C3_register_default_picture emptyDB anonSession "s4lt" aliceForm rfl⟩

/-- C4 counterexample: editing a recipe preserves the fields omitted from
the edit form (uploaded_by, uploaded_on, favorited_by keep their stored
values), contradicting the claim that they are not preserved. -/
theorem C4_edit_counterexample :
    (find_one_recipe (edit_recipe sampleDB 2 sampleForm none).recipes 2).map
        (fun r => (r.uploaded_by, r.uploaded_on, r.favorited_by))
      = some ("carol", "02-02-2022", ["bob"]) := by
  decide

/-- C4 (amended): the edit is a partial Mongo set patch, not a full-field
replace: exactly the ten form-derived fields are overwritten,
recipe_picture is carried over when no new file is supplied and replaced
by the uploaded URL when one is, and the identity and omitted fields (id,
uploaded_on, uploaded_by, favorited_by) as well as every other recipe are
preserved. -/
theorem C4_edit_set_patch (db : DB) (rid : Nat) (form : RecipeForm)
    (file_url : Option String) (r : Recipe)
    (h : find_one_recipe db.recipes rid = some r) :
    ∃ l₁ l₂ r2,
      db.recipes = l₁ ++ r :: l₂
      ∧ (edit_recipe db rid form file_url).recipes = l₁ ++ r2 :: l₂
      ∧ r2.recipe_name = form.recipename
      ∧ r2.description = form.description
      ∧ r2.recipe_cagetory = form.recipe_category
      ∧ r2.level = form.level
      ∧ r2.servings = form.servings
      ∧ r2.preptime = form.preptime
      ∧ r2.cooktime = form.cooktime
      ∧ r2.ingredients = form.ingredients
      ∧ r2.recipe_method = form.recipe_method
      ∧ r2.recipe_picture = (match file_url with
          | some url => url
          | none => r.recipe_picture)
      ∧ r2.id = r.id
      ∧ r2.uploaded_on = r.uploaded_on
      ∧ r2.uploaded_by = r.uploaded_by
      ∧ r2.favorited_by = r.favorited_by := by
  have h' : db.recipes.find? (fun x => x.id == rid) = some r := h
  have hrid : (r.id == rid) = true := by
    have h2 := List.find?_some h'
    exact h2
  obtain ⟨l₁, l₂, heq, hall⟩ := find?_split h'
  refine ⟨l₁, l₂,
    apply_set form (match file_url with | some url => url | none => r.recipe_picture) r,
    heq, ?_, rfl, rfl, rfl, rfl, rfl, rfl, rfl, rfl, rfl, rfl, rfl, rfl, rfl, rfl⟩
  simp only [edit_recipe, h]
  rw [heq]
  exact update_first_append hall hrid

/-- Witness for C4_edit_set_patch on the sample database. -/
theorem C4_edit_set_patch_witness :
    find_one_recipe sampleDB.recipes 2 = some sampleRecipe2
    ∧ (∃ l₁ l₂ r2,
        sampleDB.recipes = l₁ ++ sampleRecipe2 :: l₂
        ∧ (edit_recipe sampleDB 2 sampleForm none).recipes = l₁ ++ r2 :: l₂
        ∧ r2.recipe_name = sampleForm.recipename
        ∧ r2.description = sampleForm.description
        ∧ r2.recipe_cagetory = sampleForm.recipe_category
        ∧ r2.level = sampleForm.level
        ∧ r2.servings = sampleForm.servings
        ∧ r2.preptime = sampleForm.preptime
        ∧ r2.cooktime = sampleForm.cooktime
        ∧ r2.ingredients = sampleForm.ingredients
        ∧ r2.recipe_method = sampleForm.recipe_method
        ∧ r2.recipe_picture = (match (none : Option String) with
            | some url => url
            | none => sampleRecipe2.recipe_picture)
        ∧ r2.id = sampleRecipe2.id
        ∧ r2.uploaded_on = sampleRecipe2.uploaded_on
        ∧ r2.uploaded_by = sampleRecipe2.uploaded_by
        ∧ r2.favorited_by = sampleRecipe2.favorited_by) :=
  ⟨by decide, C4_edit_set_patch sampleDB 2 sampleForm none sampleRecipe2 (by decide)⟩

/-- Witness for C6_food_category_branches at concrete inputs. -/
theorem C6_food_category_branches_witness :
    sampleRecipe ∈ food_category [sampleRecipe, sampleRecipe2] "All" "Easy" ↔
      sampleRecipe ∈ [sampleRecipe, sampleRecipe2] ∧
      (("All" = "All" ∧ sampleRecipe.level = "Easy") ∨
       ("All" ≠ "All" ∧ "Easy" = "All" ∧ sampleRecipe.recipe_cagetory = "All") ∨
       ("All" ≠ "All" ∧ "Easy" ≠ "All"
          ∧ sampleRecipe.level = "Easy" ∧ sampleRecipe.recipe_cagetory = "All")) :=
  C6_food_category_branches [sampleRecipe, sampleRecipe2] "All" "Easy" sampleRecipe

/-- C7: when a user with the lower-cased username already exists,
registration flashes Username already exists, redirects back to the
registration form and changes nothing; moreover the register operation
preserves the username-uniqueness invariant on every database state. -/
theorem C7_register_unique (db : DB) (sess : Session) (salt : String) (form : RegisterForm) :
    ((∃ u ∈ db.users, u.username = form.username.toLower) →
      register db sess salt form =
        { db := db, session := sess, flashes := ["Username already exists"],
          response := .redirect "register" })
    ∧ (UsernameInvariant db.users →
        UsernameInvariant (register db sess salt form).db.users) := by
  constructor
  · rintro ⟨u, hu, hname⟩
    cases hfind : find_one_user db.users form.username.toLower with
    | some w => simp [register, hfind]
    | none =>
      exfalso
      rw [find_one_user, List.find?_eq_none] at hfind
      exact hfind u hu (beq_iff_eq.mpr hname)
  · intro hinv
    cases hfind : find_one_user db.users form.username.toLower with
    | some w => simpa [register, hfind] using hinv
    | none =>
      have hnotmem : ∀ x ∈ db.users, x.username ≠ form.username.toLower := by
        intro x hx e
        rw [find_one_user, List.find?_eq_none] at hfind
        exact hfind x hx (beq_iff_eq.mpr e)
      obtain ⟨hlow, hpw⟩ := hinv
      have husers : (register db sess salt form).db.users
          = db.users ++ [newUserDoc salt form] := by
        simp [register, hfind]
      rw [husers]
      refine ⟨?_, ?_⟩
      · intro u hu
        rcases List.mem_append.mp hu with h1 | h1
        · exact hlow u h1
        · rw [List.mem_singleton] at h1
          rw [h1]
          exact string_toLower_toLower form.username
      · rw [List.pairwise_append]
        refine ⟨hpw, List.pairwise_singleton _ _, ?_⟩
        intro x hx y hy
        rw [List.mem_singleton] at hy
        rw [hy]
        exact hnotmem x hx

/-- Witness for C7_register_unique: registering Alice when alice exists. -/
theorem C7_register_unique_witness :
    (register sampleUserDB anonSession "s4lt" aliceForm =
        { db := sampleUserDB, session := anonSession,
          flashes := ["Username already exists"], response := .redirect "register" })
    ∧ UsernameInvariant (register sampleUserDB anonSession "s4lt" aliceForm).db.users :=
  ⟨(C7_register_unique sampleUserDB anonSession "s4lt" aliceForm).1
      ⟨sampleUser, by decide,
        by simp only [sampleUser, aliceForm, String.toLower, String.map_eq]; decide⟩,
   (C7_register_unique sampleUserDB anonSession "s4lt" aliceForm).2
      ⟨by
        intro u hu
        simp only [sampleUserDB, List.mem_singleton] at hu
        rw [hu]
        simp only [sampleUser, String.toLower, String.map_eq]
        decide,
       by simp [sampleUserDB]⟩⟩

/-- C8: the two login failure modes, unknown username and wrong password
for an existing username, flash the identical message text and both
redirect back to the login form. -/
theorem C8_login_uniform (db : DB) (sess : Session) (u1 p1 u2 p2 : String) (hu : User)
    (h1 : find_one_user db.users u1.toLower = none)
    (h2 : find_one_user db.users u2.toLower = some hu)
    (h3 : check_password_hash hu.password p2 = false) :
    (login db sess u1 p1).flashes = ["Incorrect Username or Password, please try again!"]
    ∧ (login db sess u2 p2).flashes = (login db sess u1 p1).flashes
    ∧ (login db sess u1 p1).response = Response.redirect "login"
    ∧ (login db sess u2 p2).response = Response.redirect "login" := by
  refine ⟨?_, ?_, ?_, ?_⟩ <;> simp [login, h1, h2, h3]

/-- Witness for C8_login_uniform: ghost user versus wrong password. -/
theorem C8_login_uniform_witness :
    find_one_user sampleUserDB.users ("ghost".toLower) = none
    ∧ find_one_user sampleUserDB.users ("alice".toLower) = some sampleUser
    ∧ check_password_hash sampleUser.password "hunter3" = false
    ∧ ((login sampleUserDB anonSession "ghost" "pw").flashes
        = ["Incorrect Username or Password, please try again!"]
      ∧ (login sampleUserDB anonSession "alice" "hunter3").flashes
        = (login sampleUserDB anonSession "ghost" "pw").flashes
      ∧ (login sampleUserDB anonSession "ghost" "pw").response = Response.redirect "login"
      ∧ (login sampleUserDB anonSession "alice" "hunter3").response
        = Response.redirect "login") :=
  ⟨by simp only [String.toLower, String.map_eq]; decide,
   by simp only [String.toLower, String.map_eq]; decide,
   by decide,
   C8_login_uniform sampleUserDB anonSession "ghost" "pw" "alice" "hunter3" sampleUser
     (by simp only [String.toLower, String.map_eq]; decide)
     (by simp only [String.toLower, String.map_eq]; decide)
     (by decide)⟩

/-- C9: registration stores a salted hash that never equals the submitted
plain-text password; a subsequent login with the exact password succeeds,
and a login with any different password fails with the uniform error. -/
theorem C9_password_roundtrip (db : DB) (sess : Session) (salt : String)
    (form : RegisterForm)
    (hnew : find_one_user db.users form.username.toLower = none)
    (hsalt : ('$' : Char) ∉ salt.data) :
    ∃ u, (register db sess salt form).db.users = db.users ++ [u]
      ∧ u.password ≠ form.password
      ∧ (login (register db sess salt form).db sess form.username form.password).response
          = Response.redirect "profile"
      ∧ ∀ p2 : String, p2 ≠ form.password →
          (login (register db sess salt form).db sess form.username p2).flashes
            = ["Incorrect Username or Password, please try again!"]
          ∧ (login (register db sess salt form).db sess form.username p2).response
            = Response.redirect "login" := by
  have husers : (register db sess salt form).db.users
      = db.users ++ [newUserDoc salt form] := by
    simp [register, hnew]
  have hfind2 : find_one_user ((register db sess salt form).db.users) form.username.toLower
      = some (newUserDoc salt form) := by
    rw [husers, find_one_user, List.find?_append]
    rw [find_one_user] at hnew
    rw [hnew]
    simp [newUserDoc, List.find?]
  refine ⟨_, husers, generate_password_hash_ne salt form.password, ?_, ?_⟩
  · simp only [login, hfind2, newUserDoc]
    rw [check_generate salt form.password form.password hsalt]
    simp
  · intro p2 hp2
    have hc : check_password_hash (generate_password_hash salt form.password) p2
        = false := by
      rw [check_generate salt form.password p2 hsalt]
      exact beq_eq_false_iff_ne.mpr (Ne.symm hp2)
    constructor
    · simp [login, hfind2, hc, newUserDoc]
    · simp [login, hfind2, hc, newUserDoc]

/-- Witness for C9_password_roundtrip: registering alice on the empty
database and logging back in. -/
theorem C9_password_roundtrip_witness :
    find_one_user emptyDB.users aliceForm.username.toLower = none
    ∧ ('$' : Char) ∉ ("s4lt" : String).data
    ∧ (∃ u, (register emptyDB anonSession "s4lt" aliceForm).db.users = emptyDB.users ++ [u]
        ∧ u.password ≠ aliceForm.password
        ∧ (login (register emptyDB anonSession "s4lt" aliceForm).db anonSession
              aliceForm.username aliceForm.password).response = Response.redirect "profile"
        ∧ ∀ p2 : String, p2 ≠ aliceForm.password →
            (login (register emptyDB anonSession "s4lt" aliceForm).db anonSession
                aliceForm.username p2).flashes
              = ["Incorrect Username or Password, please try again!"]
            ∧ (login (register emptyDB anonSession "s4lt" aliceForm).db anonSession
                aliceForm.username p2).response = Response.redirect "login") :=
  ⟨rfl, by decide,
    C9_password_roundtrip emptyDB anonSession "s4lt" aliceForm rfl (by decide)⟩

end MS3
